import Mathlib

/-!
Verification of the Green Energy Home Assistant integration
(`custom_components/green_energy`): a shallow embedding of the API client
(`api.py`) and the sync coordinator (`coordinator.py`), with theorems about
the buffering, debounced-upload, retry and daily-counter behaviour.

Network effects are modelled by passing the outcome of the single HTTP
request a method performs (`HttpOutcome`), and readings arriving while an
upload's network call is in flight are passed explicitly (`midFlight`),
matching the single-threaded cooperative scheduling of the event loop:
mutation is sequential, suspension happens only at the awaits.
-/

deriving instance DecidableEq for Except

namespace GreenEnergy

/-! ## Data model: readings and state-change events (coordinator.py) -/

/-- A buffered sensor reading, as built by `_handle_state_change`. -/
structure Reading where
  entity_id : String
  state : String
  attributes : List (String × String)
  timestamp : String
deriving Repr, DecidableEq

/-- A Home Assistant entity state as the listener sees it. -/
structure HAState where
  state : String
  attributes : List (String × String)
  last_updated : String
deriving Repr, DecidableEq

/-- A state-change event: `new_state` is `none` when the entity was removed. -/
structure StateChangeEvent where
  entity_id : String
  new_state : Option HAState
deriving Repr, DecidableEq

/-- The four attribute keys `_handle_state_change` keeps. -/
def attributeWhitelist : List String :=
  ["unit_of_measurement", "device_class", "state_class", "friendly_name"]

/-- The reading `_handle_state_change` constructs from an event's new state. -/
def mkReading (entity_id : String) (st : HAState) : Reading :=
  { entity_id := entity_id
    state := st.state
    attributes := st.attributes.filter (fun kv => attributeWhitelist.contains kv.1)
    timestamp := st.last_updated }

/-! ## API client (api.py) -/

/-- Client state: `token` / `instance_id` are `none` before pairing.
`api_url` is kept for completeness; it does not affect control flow. -/
structure ApiClient where
  api_url : String
  token : Option String
  instance_id : Option String
deriving Repr, DecidableEq

/-- Python truthiness of an optional string credential:
`not self._token` is true when the token is `None` or the empty string. -/
def isFalsy : Option String → Bool
  | none => true
  | some s => s.isEmpty

/-- The exception taxonomy of api.py. All are subclasses of
`GreenEnergyApiError`, so a handler for the base class catches every one. -/
inductive ApiError where
  | invalidPairingCode
  | cannotConnect
  | authenticationError
  | apiError
deriving Repr, DecidableEq

/-- Outcome of the one HTTP request a client method performs: an HTTP
response with a parsed body, a timeout (`asyncio.TimeoutError`), or a
transport error (`aiohttp.ClientError`). -/
inductive HttpOutcome (β : Type) where
  | response (status : Nat) (body : β)
  | timeout
  | transportError
deriving Repr, DecidableEq

/-- Parsed JSON body relevant to `async_pair`: the optional `error` field
read on a 400 response, and the credential fields read on a 200 response. -/
structure PairBody where
  error : Option String
  api_token : String
  instance_id : String
deriving Repr, DecidableEq

/-- Parsed JSON body of a 200 response to `async_get_status`. -/
structure StatusBody where
  recommendation : Option String
  recommendation_reason : Option String
  recommendation_expires : Option String
  savings_today_pence : Option Int
  current_rate_pence : Option Int
deriving Repr, DecidableEq

/-- Result of one client call: `requested` records whether a network
request was issued at all, `result` the returned value or raised error. -/
structure CallOutcome (α : Type) where
  requested : Bool
  result : Except ApiError α
deriving Repr, DecidableEq

/-- `async_pair`: exchange a pairing code for credentials. On 400 the body's
`error` field decides between `InvalidPairingCode` and the generic error;
401 is `InvalidPairingCode`; any other non-200 is the generic error; on 200
the returned `api_token` / `instance_id` are stored on the client. Timeout
and transport errors map to `CannotConnect`. -/
def async_pair (c : ApiClient) (o : HttpOutcome PairBody) :
    Except ApiError ApiClient :=
  match o with
  | .timeout => .error .cannotConnect
  | .transportError => .error .cannotConnect
  | .response status body =>
      if status = 400 then
        if body.error = some "invalid_code" then .error .invalidPairingCode
        else .error .apiError
      else if status = 401 then .error .invalidPairingCode
      else if status ≠ 200 then .error .apiError
      else .ok { c with token := some body.api_token
                        instance_id := some body.instance_id }

/-- `async_post_readings`: requires truthy token and instance_id, else
raises `AuthenticationError` with no network request; 401 maps to
`AuthenticationError`, other non-200 to the generic error, timeout and
transport errors to `CannotConnect`. The readings only form the payload. -/
def async_post_readings (c : ApiClient) (readings : List Reading)
    (o : HttpOutcome Unit) : CallOutcome Unit :=
  if isFalsy c.token || isFalsy c.instance_id then
    { requested := false, result := .error .authenticationError }
  else
    { requested := true
      result :=
        match o with
        | .timeout => .error .cannotConnect
        | .transportError => .error .cannotConnect
        | .response status _ =>
            if status = 401 then .error .authenticationError
            else if status ≠ 200 then .error .apiError
            else .ok () }

/-- `async_get_status`: same auth precondition and error mapping as
`async_post_readings`; returns the parsed status body on 200. -/
def async_get_status (c : ApiClient) (o : HttpOutcome StatusBody) :
    CallOutcome StatusBody :=
  if isFalsy c.token || isFalsy c.instance_id then
    { requested := false, result := .error .authenticationError }
  else
    { requested := true
      result :=
        match o with
        | .timeout => .error .cannotConnect
        | .transportError => .error .cannotConnect
        | .response status body =>
            if status = 401 then .error .authenticationError
            else if status ≠ 200 then .error .apiError
            else .ok body }

/-- `async_unpair`: same auth precondition; 401 raises
`AuthenticationError`; otherwise returns `status == 200`. The method body
assigns no client field, so the client is returned unchanged. -/
def async_unpair (c : ApiClient) (o : HttpOutcome Unit) :
    ApiClient × CallOutcome Bool :=
  if isFalsy c.token || isFalsy c.instance_id then
    (c, { requested := false, result := .error .authenticationError })
  else
    (c, { requested := true
          result :=
            match o with
            | .timeout => .error .cannotConnect
            | .transportError => .error .cannotConnect
            | .response status _ =>
                if status = 401 then .error .authenticationError
                else .ok (status == 200) })

/-! ## Sync coordinator (coordinator.py)

The mutable fields of `GreenEnergyCoordinator` that the buffering, upload
and daily-counter logic touches. `upload_task_pending` models
`self._upload_task is not None and not self._upload_task.done()`: the task
handle is set by `_schedule_upload` and becomes done when
`_async_debounced_upload` returns. Timestamps and dates are the opaque
strings `datetime.now().isoformat()` / `.date().isoformat()` produce,
passed in as parameters. -/

structure CoordState where
  data_buffer : List Reading
  upload_task_pending : Bool
  last_upload : Option String
  readings_today : Nat
  readings_today_date : Option String
deriving Repr, DecidableEq

/-- Coordinator state right after `__init__`: empty buffer, no upload task,
no last upload, counter 0 with no stored date. -/
def initialCoordState : CoordState :=
  { data_buffer := []
    upload_task_pending := false
    last_upload := none
    readings_today := 0
    readings_today_date := none }

/-- `_schedule_upload`: if an upload task exists and is not done, return
without scheduling; otherwise create the task. The boolean reports whether
a new task was created. -/
def schedule_upload (s : CoordState) : CoordState × Bool :=
  if s.upload_task_pending then (s, false)
  else ({ s with upload_task_pending := true }, true)

/-- `_handle_state_change`: a `none` new state is dropped; otherwise the
reading is appended to the buffer and a debounced upload is scheduled.
The boolean reports whether a new upload task was created. -/
def handle_state_change (s : CoordState) (e : StateChangeEvent) :
    CoordState × Bool :=
  match e.new_state with
  | none => (s, false)
  | some st =>
      schedule_upload
        { s with data_buffer := s.data_buffer ++ [mkReading e.entity_id st] }

/-- `_async_upload_buffered_data`: return immediately on an empty buffer;
otherwise snapshot-and-clear the buffer and post the snapshot. `midFlight`
are the readings other tasks append during the awaited network call (the
only suspension point); they land in the freshly cleared buffer. On success
the last-upload timestamp is set to `now` and the counter grows by the
snapshot size; on any `GreenEnergyApiError` the snapshot is put back by
`extend`, i.e. appended after the mid-flight readings. The second component
lists the batches for which a `postReadings` network request was issued. -/
def async_upload_buffered_data (client : ApiClient) (s : CoordState)
    (midFlight : List Reading) (net : HttpOutcome Unit) (now : String) :
    CoordState × List (List Reading) :=
  if s.data_buffer.isEmpty then (s, [])
  else
    let readings := s.data_buffer
    let s1 := { s with data_buffer := midFlight }
    let call := async_post_readings client readings net
    let calls := if call.requested then [readings] else []
    match call.result with
    | .ok _ =>
        ({ s1 with last_upload := some now
                   readings_today := s1.readings_today + readings.length },
         calls)
    | .error _ =>
        ({ s1 with data_buffer := s1.data_buffer ++ readings }, calls)

/-- `_async_debounced_upload`, after its 5-second sleep: upload the
buffered data, then the coroutine returns (the follow-up
`async_request_refresh` only schedules a refresh), so the upload task
becomes done. -/
def async_debounced_upload (client : ApiClient) (s : CoordState)
    (midFlight : List Reading) (net : HttpOutcome Unit) (now : String) :
    CoordState × List (List Reading) :=
  let p := async_upload_buffered_data client s midFlight net now
  ({ p.1 with upload_task_pending := false }, p.2)

/-- The message `UpdateFailed` wraps for each error kind in
`_async_update_data` (`AuthenticationError` and `CannotConnect` are matched
before the base class). -/
def updateFailedMessage : ApiError → String
  | .authenticationError => "Authentication failed"
  | .cannotConnect => "Cannot connect"
  | _ => "API error"

/-- The snapshot `_async_update_data` returns on success; the only state
presentation entities read. -/
structure Snapshot where
  connected : Bool
  sync_status : String
  last_sync : String
  readings_today : Nat
  recommendation : String
  recommendation_reason : Option String
  recommendation_expires : Option String
  savings_today : Int
  tariff_rate : Option Int
deriving Repr, DecidableEq

/-- `_async_update_data`: first flush any buffered readings (same logic as
the debounced upload), then call `getStatus`; an API error there becomes
`UpdateFailed` (modelled as `Except.error` carrying its message). On
success, reset the daily counter to 0 when the stored date differs from
`today`, then build the snapshot. `now` stands for the
`datetime.now().isoformat()` taken for `last_sync`. -/
def async_update_data (client : ApiClient) (s : CoordState)
    (midFlight : List Reading) (net : HttpOutcome Unit)
    (statusNet : HttpOutcome StatusBody) (today : String) (now : String) :
    CoordState × List (List Reading) × Except String Snapshot :=
  let p := async_upload_buffered_data client s midFlight net now
  match (async_get_status client statusNet).result with
  | .error e => (p.1, p.2, .error (updateFailedMessage e))
  | .ok body =>
      let s2 :=
        if p.1.readings_today_date ≠ some today then
          { p.1 with readings_today := 0, readings_today_date := some today }
        else p.1
      (s2, p.2,
        .ok { connected := true
              sync_status := "synced"
              last_sync := now
              readings_today := s2.readings_today
              recommendation := body.recommendation.getD "No action needed"
              recommendation_reason := body.recommendation_reason
              recommendation_expires := body.recommendation_expires
              savings_today := body.savings_today_pence.getD 0
              tariff_rate := body.current_rate_pence })

/-- `GreenEnergySyncStatusSensor.native_value` (sensor.py): falls back to
"unknown" when the coordinator has no data yet. -/
def syncStatusSensor_native_value (data : Option Snapshot) : String :=
  match data with
  | none => "unknown"
  | some d => d.sync_status

/-! ## Scenario runners for the debounce-window property -/

/-- Process a sequence of state-change events in arrival order, counting
how many upload tasks get created. -/
def runEvents : CoordState → List StateChangeEvent → CoordState × Nat
  | s, [] => (s, 0)
  | s, e :: es =>
      let p := handle_state_change s e
      let q := runEvents p.1 es
      (q.1, (if p.2 then 1 else 0) + q.2)

/-- The readings a sequence of events buffers (events whose new state is
`none` are dropped). -/
def eventReadings (es : List StateChangeEvent) : List Reading :=
  es.filterMap (fun e => e.new_state.map (mkReading e.entity_id))

/-- One debounce window from the idle coordinator: the events arrive (all
within the 5-second window), then the scheduled task's sleep elapses and
the task uploads, then the requested refresh runs `_async_update_data`.
Returns how many upload tasks were created and the batches for which a
`postReadings` network request was issued across the whole window. -/
def windowScenario (client : ApiClient) (es : List StateChangeEvent)
    (net refreshNet : HttpOutcome Unit) (statusNet : HttpOutcome StatusBody)
    (today now now2 : String) : Nat × List (List Reading) :=
  let p := runEvents initialCoordState es
  let q := async_debounced_upload client p.1 [] net now
  let u := async_update_data client q.1 [] refreshNet statusNet today now2
  (p.2, q.2 ++ u.2.1)

/-- The batch a flush successfully uploads: the whole buffer snapshot when
the buffer is non-empty and the post succeeds, nothing otherwise. -/
def flushUploaded (client : ApiClient) (s : CoordState)
    (net : HttpOutcome Unit) : List Reading :=
  if s.data_buffer.isEmpty then []
  else
    match (async_post_readings client s.data_buffer net).result with
    | .ok _ => s.data_buffer
    | .error _ => []

/-! ## Concrete values for witnesses and counterexamples -/

/-- A paired client with truthy credentials. -/
def clientW : ApiClient := { api_url := "u", token := some "t", instance_id := some "i" }

/-- A concrete buffered reading. -/
def readingA : Reading :=
  { entity_id := "sensor.solar_power", state := "100", attributes := [],
    timestamp := "2024-01-01T10:00:00" }

/-- A concrete reading that arrives while an upload is in flight. -/
def readingB : Reading :=
  { entity_id := "sensor.grid_power", state := "50", attributes := [],
    timestamp := "2024-01-01T10:00:01" }

/-- A coordinator state holding one buffered reading, with the daily
counter dated 2024-01-01. -/
def bufferedState : CoordState :=
  { data_buffer := [readingA], upload_task_pending := true, last_upload := none,
    readings_today := 0, readings_today_date := some "2024-01-01" }

/-- A minimal parsed status body. -/
def statusBodyW : StatusBody :=
  { recommendation := none, recommendation_reason := none,
    recommendation_expires := none, savings_today_pence := none,
    current_rate_pence := none }

/-- The snapshot the witness refresh cycle from `bufferedState` produces on
2024-01-02. -/
def snapW : Snapshot :=
  { connected := true, sync_status := "synced", last_sync := "T",
    readings_today := 0, recommendation := "No action needed",
    recommendation_reason := none, recommendation_expires := none,
    savings_today := 0, tariff_rate := none }

/-- Two concrete state-change events inside one debounce window. -/
def eventW1 : StateChangeEvent :=
  { entity_id := "sensor.solar_power",
    new_state := some { state := "100", attributes := [], last_updated := "t1" } }

/-- Second concrete state-change event of the window. -/
def eventW2 : StateChangeEvent :=
  { entity_id := "sensor.grid_power",
    new_state := some { state := "50", attributes := [], last_updated := "t2" } }

/-! ## Helper lemmas -/

/-- A flush adds the successfully uploaded batch size to the daily counter
and never touches the stored counter date. -/
theorem flush_counter_effects (client : ApiClient) (s : CoordState)
    (midFlight : List Reading) (net : HttpOutcome Unit) (now : String) :
    (async_upload_buffered_data client s midFlight net now).1.readings_today
      = s.readings_today + (flushUploaded client s net).length
    ∧ (async_upload_buffered_data client s midFlight net now).1.readings_today_date
      = s.readings_today_date := by
  by_cases hE : s.data_buffer.isEmpty = true
  · simp [async_upload_buffered_data, flushUploaded, hE]
  · rw [Bool.not_eq_true] at hE
    cases hres : (async_post_readings client s.data_buffer net).result with
    | ok u => simp [async_upload_buffered_data, flushUploaded, hE, hres]
    | error e => simp [async_upload_buffered_data, flushUploaded, hE, hres]

/-- Characterization of the reported counter: a successful refresh cycle
reports the incoming counter plus this cycle's successfully flushed batch
when the stored date matches `today`, and 0 otherwise — the rollover reset
runs after the flush and discards its increment. -/
theorem readings_today_reported_aux (client : ApiClient) (s : CoordState)
    (midFlight : List Reading) (net : HttpOutcome Unit)
    (statusNet : HttpOutcome StatusBody) (today now : String) (snap : Snapshot)
    (hok : (async_update_data client s midFlight net statusNet today now).2.2
      = .ok snap) :
    snap.readings_today =
      if s.readings_today_date = some today
      then s.readings_today + (flushUploaded client s net).length
      else 0 := by
  obtain ⟨hcount, hdate⟩ := flush_counter_effects client s midFlight net now
  cases hs : (async_get_status client statusNet).result with
  | error e => simp [async_update_data, hs] at hok
  | ok body =>
      simp only [async_update_data, hs] at hok
      rw [hdate] at hok
      by_cases hd : s.readings_today_date = some today
      · rw [if_pos hd]
        simp only [hd, ne_eq, not_true_eq_false, if_false] at hok
        have hsnap := Except.ok.inj hok
        rw [← hsnap]
        simpa using hcount
      · rw [if_neg hd]
        simp only [hd, ne_eq, not_false_eq_true, if_true] at hok
        have hsnap := Except.ok.inj hok
        rw [← hsnap]

/-- While an upload task is pending, state changes only append to the
buffer; no further task is created and no other field changes. -/
theorem runEvents_pending (es : List StateChangeEvent) (s : CoordState)
    (h : s.upload_task_pending = true) :
    runEvents s es
      = ({ s with data_buffer := s.data_buffer ++ eventReadings es }, 0) := by
  induction es generalizing s with
  | nil => simp [runEvents, eventReadings]
  | cons e es ih =>
      cases hst : e.new_state with
      | none =>
          simp only [runEvents, handle_state_change, hst]
          rw [ih s h]
          simp [eventReadings, hst]
      | some st =>
          simp only [runEvents, handle_state_change, hst, schedule_upload, h,
            if_true]
          rw [ih _ rfl]
          simp [eventReadings, hst, List.filterMap_cons]

/-- When every event of the window carries a new state, the window buffers
one reading per event. -/
theorem eventReadings_length (es : List StateChangeEvent)
    (h : ∀ e ∈ es, e.new_state.isSome) :
    (eventReadings es).length = es.length := by
  induction es with
  | nil => rfl
  | cons e es ih =>
      obtain ⟨st, hst⟩ := Option.isSome_iff_exists.mp (h e (by simp))
      simp only [eventReadings, List.filterMap_cons, hst, Option.map_some]
      simp only [eventReadings] at ih
      simp [ih fun x hx => h x (by simp [hx])]

/-! ## Claim theorems -/

/-- Claim C1: for every sequence of N ≥ 1 state-change events buffered
within a single debounce window, exactly one upload task is created and
exactly one `postReadings` network call is made, containing all N readings
(here: in arrival order); and a state change arriving while an upload task
is already pending or running never creates a second upload task. The
scenario runs the events, then the debounce fires (upload succeeds), then
the follow-up refresh runs; across all of it the call list is exactly one
batch holding the window's N readings. -/
theorem debounce_window_single_upload (client : ApiClient)
    (es : List StateChangeEvent) (refreshNet : HttpOutcome Unit)
    (statusNet : HttpOutcome StatusBody) (today now now2 : String)
    (hne : es ≠ []) (hsome : ∀ e ∈ es, e.new_state.isSome)
    (hauth : (isFalsy client.token || isFalsy client.instance_id) = false) :
    ((windowScenario client es (.response 200 ()) refreshNet statusNet today now now2).1
        = 1
      ∧ (windowScenario client es (.response 200 ()) refreshNet statusNet today now now2).2
        = [eventReadings es]
      ∧ (eventReadings es).length = es.length)
    ∧ (∀ s e, s.upload_task_pending = true → (handle_state_change s e).2 = false) := by
  constructor
  · obtain ⟨e, rest, rfl⟩ : ∃ e rest, es = e :: rest := by
      cases es with
      | nil => exact absurd rfl hne
      | cons e rest => exact ⟨e, rest, rfl⟩
    obtain ⟨st, hst⟩ := Option.isSome_iff_exists.mp (hsome e (by simp))
    have h1 : handle_state_change initialCoordState e =
        ({ data_buffer := [mkReading e.entity_id st], upload_task_pending := true,
           last_upload := none, readings_today := 0,
           readings_today_date := none }, true) := by
      simp [handle_state_change, hst, schedule_upload, initialCoordState]
    have h2 : runEvents initialCoordState (e :: rest) =
        ({ data_buffer := eventReadings (e :: rest), upload_task_pending := true,
           last_upload := none, readings_today := 0,
           readings_today_date := none }, 1) := by
      simp only [runEvents, h1]
      rw [runEvents_pending rest _ rfl]
      simp [eventReadings, List.filterMap_cons, hst]
    have hbufne : eventReadings (e :: rest) ≠ [] := by
      simp [eventReadings, List.filterMap_cons, hst]
    have hE : (eventReadings (e :: rest)).isEmpty = false := by
      simpa [List.isEmpty_iff] using hbufne
    have hpost : async_post_readings client (eventReadings (e :: rest))
        (.response 200 ()) = { requested := true, result := .ok () } := by
      simp [async_post_readings, hauth]
    refine ⟨?_, ?_, eventReadings_length _ hsome⟩
    · simp [windowScenario, h2]
    · simp only [windowScenario, h2]
      simp only [async_debounced_upload, async_upload_buffered_data, hE,
        Bool.false_eq_true, if_false, hpost]
      simp [async_update_data, async_upload_buffered_data]
      cases (async_get_status client statusNet).result <;> rfl
  · intro s e h
    cases he : e.new_state with
    | none => simp [handle_state_change, he]
    | some st => simp [handle_state_change, he, schedule_upload, h]

/-- Witness for C1: two events inside one window from the idle coordinator
create exactly one upload task and produce exactly one `postReadings` call
holding both readings. -/
theorem debounce_window_single_upload_witness :
    (windowScenario clientW [eventW1, eventW2] (.response 200 ()) (.response 200 ())
        (.response 200 statusBodyW) "2024-01-01" "T1" "T2").1 = 1
    ∧ (windowScenario clientW [eventW1, eventW2] (.response 200 ()) (.response 200 ())
        (.response 200 statusBodyW) "2024-01-01" "T1" "T2").2
      = [eventReadings [eventW1, eventW2]] :=
  ⟨((debounce_window_single_upload clientW [eventW1, eventW2] (.response 200 ())
      (.response 200 statusBodyW) "2024-01-01" "T1" "T2" (by decide) (by decide)
      (by decide)).1).1,
   ((debounce_window_single_upload clientW [eventW1, eventW2] (.response 200 ())
      (.response 200 statusBodyW) "2024-01-01" "T1" "T2" (by decide) (by decide)
      (by decide)).1).2.1⟩

/-- Claim C2: flushing a non-empty buffer, on `postReadings` success,
increases `readings_today` by exactly the flushed batch size and sets the
last-upload timestamp; on failure with any API error kind it leaves both
unchanged and puts every reading of the batch back into the buffer, whose
snapshot the next upload attempt takes. -/
theorem flush_roundtrip (client : ApiClient) (s : CoordState)
    (midFlight : List Reading) (net : HttpOutcome Unit) (now : String)
    (hne : s.data_buffer ≠ []) :
    ((async_post_readings client s.data_buffer net).result = .ok () →
      (async_upload_buffered_data client s midFlight net now).1.readings_today
        = s.readings_today + s.data_buffer.length
      ∧ (async_upload_buffered_data client s midFlight net now).1.last_upload
        = some now)
    ∧ (∀ e, (async_post_readings client s.data_buffer net).result = .error e →
        (async_upload_buffered_data client s midFlight net now).1.readings_today
          = s.readings_today
        ∧ (async_upload_buffered_data client s midFlight net now).1.last_upload
          = s.last_upload
        ∧ (async_upload_buffered_data client s midFlight net now).1.data_buffer
          = midFlight ++ s.data_buffer
        ∧ (∀ r ∈ s.data_buffer,
            r ∈ (async_upload_buffered_data client s midFlight net now).1.data_buffer)) := by
  have hE : s.data_buffer.isEmpty = false := by
    simpa [List.isEmpty_iff] using hne
  constructor
  · intro hok
    constructor <;> simp [async_upload_buffered_data, hE, hok]
  · intro e hfail
    refine ⟨?_, ?_, ?_, ?_⟩
    · simp [async_upload_buffered_data, hE, hfail]
    · simp [async_upload_buffered_data, hE, hfail]
    · simp [async_upload_buffered_data, hE, hfail]
    · intro r hr
      simp [async_upload_buffered_data, hE, hfail]
      exact Or.inr hr

/-- Witness for C2: one buffered reading uploaded successfully adds 1 to
the counter; a failed upload leaves the counter unchanged and the reading
is back in the buffer. -/
theorem flush_roundtrip_witness :
    ((async_upload_buffered_data clientW bufferedState [] (.response 200 ()) "T").1.readings_today
      = bufferedState.readings_today + bufferedState.data_buffer.length)
    ∧ ((async_upload_buffered_data clientW bufferedState [] (.response 500 ()) "T").1.readings_today
      = bufferedState.readings_today)
    ∧ (readingA ∈ (async_upload_buffered_data clientW bufferedState [] (.response 500 ()) "T").1.data_buffer) := by
  refine ⟨?_, ?_, ?_⟩
  · exact ((flush_roundtrip clientW bufferedState [] (.response 200 ()) "T"
      (by decide)).1 (by decide)).1
  · exact (((flush_roundtrip clientW bufferedState [] (.response 500 ()) "T"
      (by decide)).2 .apiError (by decide))).1
  · exact (((flush_roundtrip clientW bufferedState [] (.response 500 ()) "T"
      (by decide)).2 .apiError (by decide))).2.2.2 readingA (by decide)

/-- Claim C3: a flush is an atomic snapshot-and-clear: the successfully
uploaded batch together with the resulting buffer is a permutation of the
old buffer plus the readings that arrived during the in-flight call (no
reading lost, none duplicated), at most one upload call is issued, and
every mid-flight reading accumulates in the fresh buffer. -/
theorem flush_conservation (client : ApiClient) (s : CoordState)
    (midFlight : List Reading) (net : HttpOutcome Unit) (now : String)
    (hne : s.data_buffer ≠ []) :
    ((flushUploaded client s net
        ++ (async_upload_buffered_data client s midFlight net now).1.data_buffer).Perm
      (s.data_buffer ++ midFlight))
    ∧ (async_upload_buffered_data client s midFlight net now).2.length ≤ 1
    ∧ (∀ r ∈ midFlight,
        r ∈ (async_upload_buffered_data client s midFlight net now).1.data_buffer) := by
  have hE : s.data_buffer.isEmpty = false := by
    simpa [List.isEmpty_iff] using hne
  refine ⟨?_, ?_, ?_⟩
  · cases hres : (async_post_readings client s.data_buffer net).result with
    | ok u =>
        simp [async_upload_buffered_data, flushUploaded, hE, hres]
    | error e =>
        simp [async_upload_buffered_data, flushUploaded, hE, hres]
        exact List.perm_append_comm
  · cases hres : (async_post_readings client s.data_buffer net).result with
    | ok u =>
        simp [async_upload_buffered_data, hE, hres]
        split <;> simp
    | error e =>
        simp [async_upload_buffered_data, hE, hres]
        split <;> simp
  · intro r hr
    cases hres : (async_post_readings client s.data_buffer net).result with
    | ok u => simp [async_upload_buffered_data, hE, hres, hr]
    | error e =>
        simp [async_upload_buffered_data, hE, hres]
        exact Or.inl hr

/-- Witness for C3: conservation at a concrete failed flush with one
mid-flight arrival. -/
theorem flush_conservation_witness :
    (flushUploaded clientW bufferedState (.response 500 ())
      ++ (async_upload_buffered_data clientW bufferedState [readingB]
            (.response 500 ()) "T").1.data_buffer).Perm
      (bufferedState.data_buffer ++ [readingB]) :=
  (flush_conservation clientW bufferedState [readingB] (.response 500 ()) "T"
    (by decide)).1

/-- Counterexample to claim C4 as stated: starting from a buffer holding
one reading and a stored counter date of 2024-01-01, a refresh cycle on
2024-01-02 flushes and successfully uploads that reading (one `postReadings`
call, during the current calendar day), yet the snapshot it builds reports
`readings_today = 0`: the rollover reset runs after the flush and discards
the increment, so the reported counter does not equal the number of
readings successfully uploaded during the current day. -/
theorem readings_today_rollover_cx :
    ((async_update_data clientW bufferedState [] (.response 200 ())
        (.response 200 statusBodyW) "2024-01-02" "T").2.2 = .ok snapW)
    ∧ ((async_update_data clientW bufferedState [] (.response 200 ())
        (.response 200 statusBodyW) "2024-01-02" "T").2.1 = [[readingA]])
    ∧ flushUploaded clientW bufferedState (.response 200 ()) = [readingA]
    ∧ snapW.readings_today = 0
    ∧ snapW.readings_today
        ≠ (flushUploaded clientW bufferedState (.response 200 ())).length := by
  refine ⟨by decide, by decide, by decide, by decide, by decide⟩

/-- Claim C4 (amended): at every successfully reported snapshot,
`readings_today` equals the incoming counter plus the batch successfully
uploaded by the same cycle's flush when the stored counter date equals the
current date, and 0 otherwise — the reset to `(today, 0)` runs after the
flush, so batches uploaded by a cycle whose stored date differs from the
current date (including that same cycle's flush) are discarded rather than
counted. -/
theorem readings_today_reported (client : ApiClient) (s : CoordState)
    (midFlight : List Reading) (net : HttpOutcome Unit)
    (statusNet : HttpOutcome StatusBody) (today now : String) (snap : Snapshot)
    (hok : (async_update_data client s midFlight net statusNet today now).2.2
      = .ok snap) :
    snap.readings_today =
      if s.readings_today_date = some today
      then s.readings_today + (flushUploaded client s net).length
      else 0 :=
  readings_today_reported_aux client s midFlight net statusNet today now snap hok

/-- Witness for the amended C4 at the rollover input: the reported counter
is 0 because the stored date differs from the current date. -/
theorem readings_today_reported_witness :
    snapW.readings_today =
      if bufferedState.readings_today_date = some "2024-01-02"
      then bufferedState.readings_today
        + (flushUploaded clientW bufferedState (.response 200 ())).length
      else 0 :=
  readings_today_reported clientW bufferedState [] (.response 200 ())
    (.response 200 statusBodyW) "2024-01-02" "T" snapW (by decide)

/-- Claim C5: whenever a refresh cycle builds a snapshot and the stored
counter date differs from the current date, `readings_today` is reset to 0
before being reported in that snapshot. -/
theorem rollover_resets_counter (client : ApiClient) (s : CoordState)
    (midFlight : List Reading) (net : HttpOutcome Unit)
    (statusNet : HttpOutcome StatusBody) (today now : String) (snap : Snapshot)
    (hdate : s.readings_today_date ≠ some today)
    (hok : (async_update_data client s midFlight net statusNet today now).2.2
      = .ok snap) :
    snap.readings_today = 0 := by
  rw [readings_today_reported_aux client s midFlight net statusNet today now snap hok,
    if_neg hdate]

/-- Witness for C5: a concrete mid-session rollover reports 0. -/
theorem rollover_resets_counter_witness :
    bufferedState.readings_today_date ≠ some "2024-01-02"
    ∧ snapW.readings_today = 0 :=
  ⟨by decide,
   rollover_resets_counter clientW bufferedState [] (.response 200 ())
     (.response 200 statusBodyW) "2024-01-02" "T" snapW (by decide) (by decide)⟩

/-- Counterexample to claim C6 as stated: with buffer `[readingA]` and
`readingB` arriving during the failed network call, the restored buffer is
`[readingB, readingA]` — the failed batch is appended after the newer
mid-flight reading, not placed before it as the claim says. -/
theorem failed_batch_order_cx :
    ((async_upload_buffered_data clientW bufferedState [readingB]
        (.response 500 ()) "T").1.data_buffer = [readingB, readingA])
    ∧ ((async_upload_buffered_data clientW bufferedState [readingB]
        (.response 500 ()) "T").1.data_buffer ≠ [readingA, readingB]) := by
  constructor <;> decide

/-- Claim C6 (amended): when an upload fails, the restored batch is
appended after (not before) the readings that were appended to the buffer
during the failed network call, so the retried batch follows the newer
readings in the buffer. -/
theorem failed_batch_appended_after_midflight (client : ApiClient)
    (s : CoordState) (midFlight : List Reading) (net : HttpOutcome Unit)
    (now : String) (hne : s.data_buffer ≠ []) (e : ApiError)
    (hfail : (async_post_readings client s.data_buffer net).result = .error e) :
    (async_upload_buffered_data client s midFlight net now).1.data_buffer
      = midFlight ++ s.data_buffer := by
  have hE : s.data_buffer.isEmpty = false := by
    simpa [List.isEmpty_iff] using hne
  simp [async_upload_buffered_data, hE, hfail]

/-- Witness for the amended C6 at a concrete failed upload. -/
theorem failed_batch_appended_after_midflight_witness :
    (async_upload_buffered_data clientW bufferedState [readingB]
      (.response 500 ()) "T").1.data_buffer
      = [readingB] ++ bufferedState.data_buffer :=
  failed_batch_appended_after_midflight clientW bufferedState [readingB]
    (.response 500 ()) "T" (by decide) .apiError (by decide)

/-- Claim C7: `async_pair` raises `InvalidPairingCode` exactly on HTTP 400
with error=invalid_code or on HTTP 401; `CannotConnect` on timeout or
transport error; the generic error on any other non-200/400/401 response or
a 400 with an unrecognized error payload; and on success it stores the
returned token and instance_id on the client, so subsequent `postReadings`
and `getStatus` calls pass the authentication precondition and issue a
network request instead of failing locally. -/
theorem pair_error_mapping_and_success (c : ApiClient) (o : HttpOutcome PairBody) :
    (async_pair c o = .error .invalidPairingCode ↔
      ((∃ b, o = .response 400 b ∧ b.error = some "invalid_code") ∨
       (∃ b, o = .response 401 b)))
    ∧ (o = .timeout ∨ o = .transportError →
        async_pair c o = .error .cannotConnect)
    ∧ (∀ st b, o = .response st b → st ≠ 200 → st ≠ 400 → st ≠ 401 →
        async_pair c o = .error .apiError)
    ∧ (∀ b, o = .response 400 b → b.error ≠ some "invalid_code" →
        async_pair c o = .error .apiError)
    ∧ (∀ b, o = .response 200 b →
        async_pair c o = .ok { c with token := some b.api_token
                                      instance_id := some b.instance_id }
        ∧ (b.api_token.isEmpty = false → b.instance_id.isEmpty = false →
            ∀ rs net netS,
              (async_post_readings
                { c with token := some b.api_token
                         instance_id := some b.instance_id } rs net).requested = true
              ∧ (async_get_status
                  { c with token := some b.api_token
                           instance_id := some b.instance_id } netS).requested = true)) := by
  refine ⟨?_, ?_, ?_, ?_, ?_⟩
  · constructor
    · intro h
      cases o with
      | timeout => simp [async_pair] at h
      | transportError => simp [async_pair] at h
      | response st b =>
          by_cases h400 : st = 400
          · subst h400
            by_cases hic : b.error = some "invalid_code"
            · exact Or.inl ⟨b, rfl, hic⟩
            · simp [async_pair, hic] at h
          · by_cases h401 : st = 401
            · subst h401
              exact Or.inr ⟨b, rfl⟩
            · by_cases h200 : st = 200
              · subst h200
                simp [async_pair] at h
              · simp [async_pair, h400, h401, h200] at h
    · rintro (⟨b, rfl, hb⟩ | ⟨b, rfl⟩)
      · simp [async_pair, hb]
      · simp [async_pair]
  · rintro (rfl | rfl) <;> rfl
  · rintro st b rfl h200 h400 h401
    simp [async_pair, h200, h400, h401]
  · rintro b rfl hb
    simp [async_pair, hb]
  · rintro b rfl
    refine ⟨by simp [async_pair], ?_⟩
    intro ht hi rs net netS
    constructor
    · simp [async_post_readings, isFalsy, ht, hi]
    · simp [async_get_status, isFalsy, ht, hi]

/-- Witness for C7: a concrete invalid-code 400 raises `InvalidPairingCode`;
a concrete 200 stores the returned credentials and a subsequent
`postReadings` issues a network request. -/
theorem pair_error_mapping_and_success_witness :
    (async_pair { api_url := "u", token := none, instance_id := none }
        (.response 400 { error := some "invalid_code", api_token := "",
                         instance_id := "" })
      = .error .invalidPairingCode)
    ∧ (async_pair { api_url := "u", token := none, instance_id := none }
        (.response 200 { error := none, api_token := "t1", instance_id := "i1" })
      = .ok { api_url := "u", token := some "t1", instance_id := some "i1" })
    ∧ ((async_post_readings { api_url := "u", token := some "t1",
                              instance_id := some "i1" }
        [] (.response 200 ())).requested = true) := by
  refine ⟨?_, ?_, ?_⟩
  · exact (pair_error_mapping_and_success _ _).1.mpr (Or.inl ⟨_, rfl, rfl⟩)
  · exact ((pair_error_mapping_and_success
      { api_url := "u", token := none, instance_id := none }
      (.response 200 { error := none, api_token := "t1",
                       instance_id := "i1" })).2.2.2.2 _ rfl).1
  · exact (((pair_error_mapping_and_success
      { api_url := "u", token := none, instance_id := none }
      (.response 200 { error := none, api_token := "t1",
                       instance_id := "i1" })).2.2.2.2 _ rfl).2 (by decide)
      (by decide) [] (.response 200 ()) .timeout).1

/-- Claim C8: for both `postReadings` and `getStatus`, an unset (falsy)
token or instance_id raises `AuthenticationError` with no network request;
with credentials set a request is issued, and HTTP 401 maps to
`AuthenticationError`, timeout or transport error to `CannotConnect`, and
any other non-200 status to the generic error. -/
theorem api_auth_precondition_and_error_mapping (c : ApiClient)
    (rs : List Reading) (net : HttpOutcome Unit) (netS : HttpOutcome StatusBody) :
    ((isFalsy c.token || isFalsy c.instance_id) = true →
        async_post_readings c rs net =
          { requested := false, result := .error .authenticationError } ∧
        async_get_status c netS =
          { requested := false, result := .error .authenticationError })
    ∧ ((isFalsy c.token || isFalsy c.instance_id) = false →
        (async_post_readings c rs net).requested = true ∧
        (async_get_status c netS).requested = true ∧
        (∀ u, net = .response 401 u →
            (async_post_readings c rs net).result = .error .authenticationError) ∧
        (∀ b, netS = .response 401 b →
            (async_get_status c netS).result = .error .authenticationError) ∧
        (net = .timeout ∨ net = .transportError →
            (async_post_readings c rs net).result = .error .cannotConnect) ∧
        (netS = .timeout ∨ netS = .transportError →
            (async_get_status c netS).result = .error .cannotConnect) ∧
        (∀ st u, net = .response st u → st ≠ 200 → st ≠ 401 →
            (async_post_readings c rs net).result = .error .apiError) ∧
        (∀ st b, netS = .response st b → st ≠ 200 → st ≠ 401 →
            (async_get_status c netS).result = .error .apiError)) := by
  constructor
  · intro h
    constructor
    · simp [async_post_readings, h]
    · simp [async_get_status, h]
  · intro h
    refine ⟨?_, ?_, ?_, ?_, ?_, ?_, ?_, ?_⟩
    · simp [async_post_readings, h]
    · simp [async_get_status, h]
    · rintro u rfl; simp [async_post_readings, h]
    · rintro b rfl; simp [async_get_status, h]
    · rintro (rfl | rfl) <;> simp [async_post_readings, h]
    · rintro (rfl | rfl) <;> simp [async_get_status, h]
    · rintro st u rfl h200 h401; simp [async_post_readings, h, h200, h401]
    · rintro st b rfl h200 h401; simp [async_get_status, h, h200, h401]

/-- Witness for C8: a client without a token fails `postReadings` locally;
an authenticated client maps a 503 from `getStatus` to the generic error. -/
theorem api_auth_precondition_witness :
    (async_post_readings { api_url := "u", token := none, instance_id := some "i" }
        [] (.response 200 ()) =
      { requested := false, result := .error .authenticationError })
    ∧ ((async_get_status { api_url := "u", token := some "t", instance_id := some "i" }
        (.response 503 statusBodyW)).result = .error .apiError) := by
  constructor
  · exact ((api_auth_precondition_and_error_mapping _ [] (.response 200 ())
      .timeout).1 (by decide)).1
  · exact ((api_auth_precondition_and_error_mapping
      { api_url := "u", token := some "t", instance_id := some "i" } [] .timeout
      (.response 503 statusBodyW)).2 (by decide)).2.2.2.2.2.2.2 503 _ rfl
      (by decide) (by decide)

/-- Claim C9: every snapshot the coordinator builds on a successful update
cycle has `connected = true` and `sync_status = "synced"`; in particular it
is never "syncing" or "error"; and the sensor layer reports "unknown" only
when the coordinator has no data. -/
theorem snapshot_always_synced (client : ApiClient) (s : CoordState)
    (midFlight : List Reading) (net : HttpOutcome Unit)
    (statusNet : HttpOutcome StatusBody) (today now : String) (snap : Snapshot)
    (hok : (async_update_data client s midFlight net statusNet today now).2.2
      = .ok snap) :
    snap.connected = true ∧ snap.sync_status = "synced"
    ∧ snap.sync_status ≠ "syncing" ∧ snap.sync_status ≠ "error"
    ∧ syncStatusSensor_native_value none = "unknown"
    ∧ syncStatusSensor_native_value (some snap) = "synced" := by
  cases hs : (async_get_status client statusNet).result with
  | error e => simp [async_update_data, hs] at hok
  | ok body =>
      simp only [async_update_data, hs] at hok
      have hsnap := Except.ok.inj hok
      rw [← hsnap]
      refine ⟨rfl, rfl, by simp, by simp, rfl, rfl⟩

/-- Witness for C9 at a concrete successful cycle. -/
theorem snapshot_always_synced_witness :
    snapW.connected = true ∧ snapW.sync_status = "synced"
    ∧ syncStatusSensor_native_value none = "unknown" := by
  obtain ⟨h1, h2, _, _, h5, _⟩ :=
    snapshot_always_synced clientW bufferedState [] (.response 200 ())
      (.response 200 statusBodyW) "2024-01-02" "T" snapW (by decide)
  exact ⟨h1, h2, h5⟩

/-- Claim C10: a successful unpair (HTTP 200, returning true) leaves the
client's stored token and instance_id unchanged and non-None, so every
subsequent `postReadings`, `getStatus` or `unpair` call still passes the
authentication precondition and issues a network request rather than
failing locally. -/
theorem unpair_success_preserves_credentials (c : ApiClient)
    (o : HttpOutcome Unit) (h : (async_unpair c o).2.result = .ok true) :
    (async_unpair c o).1 = c
    ∧ c.token ≠ none ∧ c.instance_id ≠ none
    ∧ (∀ rs net, (async_post_readings c rs net).requested = true)
    ∧ (∀ netS, (async_get_status c netS).requested = true)
    ∧ (∀ o2, ((async_unpair c o2).2).requested = true) := by
  by_cases hf : (isFalsy c.token || isFalsy c.instance_id) = true
  · simp [async_unpair, hf] at h
  · rw [Bool.not_eq_true] at hf
    have ht : isFalsy c.token = false := by
      cases hb : isFalsy c.token <;> simp [hb] at hf ⊢
    have hi : isFalsy c.instance_id = false := by
      cases hb : isFalsy c.instance_id <;> simp [hb] at hf ⊢
    refine ⟨by simp [async_unpair, hf], ?_, ?_, ?_, ?_, ?_⟩
    · intro hn; rw [hn] at ht; simp [isFalsy] at ht
    · intro hn; rw [hn] at hi; simp [isFalsy] at hi
    · intro rs net; simp [async_post_readings, hf]
    · intro netS; simp [async_get_status, hf]
    · intro o2; simp [async_unpair, hf]

/-- Witness for C10 at a concrete successful unpair. -/
theorem unpair_success_preserves_credentials_witness :
    ((async_unpair { api_url := "u", token := some "t", instance_id := some "i" }
        (.response 200 ())).2.result = .ok true)
    ∧ ((async_unpair { api_url := "u", token := some "t", instance_id := some "i" }
        (.response 200 ())).1
      = { api_url := "u", token := some "t", instance_id := some "i" }) :=
  ⟨by decide,
   (unpair_success_preserves_credentials
      { api_url := "u", token := some "t", instance_id := some "i" }
      (.response 200 ()) (by decide)).1⟩

end GreenEnergy
